import Mathlib

/-!
Verification of the iTerm2 bridge core (scripts/iterm2-bridge.py): the ANSI
filter, the prioritized state classifier, the session registry, the command
router and the line-protocol loops, shallowly embedded in Lean.  Python
strings are modelled as Lean strings (lists of characters), regular-expression
matching is modelled by explicit matchers that follow the engine's
leftmost-search and backtracking behaviour for the concrete patterns of the
source, exceptions are modelled with Except, and decoded JSON values with an
inductive type.
-/

namespace Bridge

/-- The ESC character (0x1B) that opens every ANSI escape sequence. -/
def ESC : Char := Char.ofNat 27

/-- The BEL character (0x07), one of the two OSC terminators. -/
def BEL : Char := Char.ofNat 7

/-- Characters allowed in a CSI parameter section: the class [0-9;] of ANSI_RE. -/
def isCsiParam (c : Char) : Bool := c.isDigit || c = ';'

/-- ASCII letters: the class [A-Za-z] of ANSI_RE. -/
def isAsciiLetter (c : Char) : Bool :=
  ('A' ≤ c && c ≤ 'Z') || ('a' ≤ c && c ≤ 'z')

/-- Length of the maximal prefix of the list whose characters satisfy p. -/
def spanCount (p : Char → Bool) : List Char → Nat
  | [] => 0
  | c :: rest => if p c then spanCount p rest + 1 else 0

/-- Match of the CSI alternative of ANSI_RE after ESC and the opening bracket:
a greedy run of [0-9;] followed by one ASCII letter.  Returns the number of
characters consumed after the two-character opener.  A shorter parameter run
cannot rescue a failed letter test because parameter characters are never
letters, so greedy matching without backtracking is exact here. -/
def csiLen (l : List Char) : Option Nat :=
  let k := spanCount isCsiParam l
  match (l.drop k).head? with
  | some c => if isAsciiLetter c then some (k + 1) else none
  | none => none

/-- Match of the OSC alternative of ANSI_RE after ESC and the closing bracket:
a lazy run of non-newline characters up to the first BEL or ESC-backslash
terminator.  At each position the engine first tries the terminator
alternatives in order and otherwise consumes one non-newline character. -/
def oscLen : List Char → Option Nat
  | [] => none
  | c :: rest =>
    if c = BEL then some 1
    else if c = ESC && rest.head? = some '\\' then some 2
    else if c = '\n' then none
    else (oscLen rest).map (· + 1)

/-- Total length of the match of ANSI_RE at the head of the list, if any:
ESC followed by a CSI sequence, an OSC sequence, or a single charset-select
character in [A-Z0-9].  The three alternatives start with distinct
characters, so trying them by the character after ESC follows the
alternation order of the pattern. -/
def ansiMatchLen : List Char → Option Nat
  | c1 :: c2 :: rest =>
    if c1 = ESC then
      if c2 = '[' then (csiLen rest).map (· + 2)
      else if c2 = ']' then (oscLen rest).map (· + 2)
      else if c2 = '(' then
        match rest.head? with
        | some c3 => if c3.isUpper || c3.isDigit then some 3 else none
        | none => none
      else none
    else none
  | _ => none

/-- The scan of ANSI_RE.sub: at each position try to match ANSI_RE; on a
match drop the matched characters and resume after them, otherwise keep the
character and advance by one.  The second argument counts characters of a
previous match still to be skipped. -/
def subScan : List Char → Nat → List Char
  | [], _ => []
  | _ :: rest, n + 1 => subScan rest n
  | c :: rest, 0 =>
    match ansiMatchLen (c :: rest) with
    | some k => subScan rest (k - 1)
    | none => c :: subScan rest 0

/-- strip_ansi of the source: empty input yields the empty string, otherwise
every non-overlapping match of ANSI_RE is removed. -/
def strip_ansi (text : String) : String :=
  if text = "" then "" else String.mk (subScan text.data 0)

/-- Characters of a string as a list, for writing pattern literals. -/
def cs (s : String) : List Char := s.data

/-- First literal alternative of the list that is a prefix of the text at the
current position, in alternation order. -/
def litAt (lits : List (List Char)) (l : List Char) : Option (List Char) :=
  match lits with
  | [] => none
  | w :: ws => if w.isPrefixOf l then some w else litAt ws l

/-- The literal alternatives of the error pattern. -/
def errorLits : List (List Char) :=
  [cs "Error:", cs "FATAL", cs "panic", cs "Traceback", cs "ENOENT", cs "EACCES"]

/-- Matcher of the error pattern at one position (the line-start flag is
unused by this pattern). -/
def errorAt (_ : Bool) (l : List Char) : Option (List Char) := litAt errorLits l

/-- The shared literal prefix of the context-pressure alternatives. -/
def cpMid : List Char := cs "Context pressure: "

/-- Second checkpoint alternative: the context-pressure prefix, one of 8 or
9, a digit, and a percent sign. -/
def cpSecond (l : List Char) : Option (List Char) :=
  if cpMid.isPrefixOf l then
    match l.drop cpMid.length with
    | a :: b :: c :: _ =>
      if (a = '8' || a = '9') && b.isDigit && c = '%' then some (cpMid ++ [a, b, c])
      else none
    | _ => none
  else none

/-- Matcher of the checkpoint pattern at one position, alternatives in
pattern order. -/
def checkpointAt (_ : Bool) (l : List Char) : Option (List Char) :=
  if (cs "CHECKPOINT SAVED").isPrefixOf l then some (cs "CHECKPOINT SAVED")
  else
    match cpSecond l with
    | some m => some m
    | none =>
      if (cs "Context pressure: 100%").isPrefixOf l then
        some (cs "Context pressure: 100%")
      else none

/-- Matcher of the plan-approval pattern at one position. -/
def planApprovalAt (_ : Bool) (l : List Char) : Option (List Char) :=
  litAt [cs "Waiting for plan approval", cs "Approve this plan?"] l

/-- Matcher of the completion pattern at one position. -/
def completeAt (_ : Bool) (l : List Char) : Option (List Char) :=
  litAt [cs "All plan steps complete", cs "Task complete"] l

/-- The whitespace class of the regex engine, restricted to the Latin-1
range; wider Unicode space characters do not occur in the protocol texts the
bridge classifies. -/
def isPySpace (c : Char) : Bool :=
  c = ' ' || c = '\t' || c = '\n' || c = '\r' ||
  c = Char.ofNat 11 || c = Char.ofNat 12 ||
  c = Char.ofNat 28 || c = Char.ofNat 29 || c = Char.ofNat 30 || c = Char.ofNat 31 ||
  c = Char.ofNat 133 || c = Char.ofNat 160

/-- Case-insensitive prefix test, for the IGNORECASE waiting-input pattern. -/
def ciPrefixOf : List Char → List Char → Bool
  | [], _ => true
  | _ :: _, [] => false
  | a :: as, b :: bs => (a.toLower = b.toLower) && ciPrefixOf as bs

/-- The waiting-input answer words, in alternation order. -/
def wiWords : List (List Char) := [cs "yes", cs "no", cs "approve", cs "reject"]

/-- Case-insensitive match of one of the answer words at the current
position; the returned text is taken from the input (group 0 preserves the
original case). -/
def wiWordAt (l : List Char) : Option (List Char) :=
  match wiWords.find? (fun w => ciPrefixOf w l) with
  | some w => some (l.take w.length)
  | none => none

/-- Greedy backtracking for the one-or-more whitespace run of the
waiting-input pattern: try the longest run first, then shorter ones, never
the empty run. -/
def wiBacktrack : Nat → List Char → Option (List Char)
  | 0, _ => none
  | j + 1, rest =>
    match wiWordAt (rest.drop (j + 1)) with
    | some w => some (rest.take (j + 1) ++ w)
    | none => wiBacktrack j rest

/-- Matcher of the waiting-input pattern at one position: a question mark,
at least one whitespace character, then an answer word, case-insensitively. -/
def waitingInputAt (_ : Bool) (l : List Char) : Option (List Char) :=
  match l with
  | '?' :: rest => (wiBacktrack (spanCount isPySpace rest) rest).map (fun m => '?' :: m)
  | _ => none

/-- The spinner characters of the working pattern. -/
def spinnerChars : List Char := ['⠋', '⠙', '⠹', '⠸', '⠼', '⠴', '⠦', '⠧', '⠇', '⠏']

/-- Matcher of the working pattern at one position: a spinner character or
one of the literals Running and Executing. -/
def workingAt (_ : Bool) (l : List Char) : Option (List Char) :=
  match l with
  | c :: _ =>
    if spinnerChars.contains c then some [c]
    else litAt [cs "Running", cs "Executing"] l
  | [] => none

/-- End-of-line test for the multiline dollar anchor: end of input or a
position directly before a newline. -/
def atEol : List Char → Bool
  | [] => true
  | c :: _ => c = '\n'

/-- Greedy backtracking for the whitespace-star of the idle pattern: try the
longest whitespace run first, down to the empty run, stopping at the first
length whose end position satisfies the dollar anchor. -/
def idleBacktrack : Nat → List Char → Option Nat
  | 0, rest => if atEol rest then some 0 else none
  | j + 1, rest => if atEol (rest.drop (j + 1)) then some (j + 1) else idleBacktrack j rest

/-- Matcher of the idle pattern at one position: only at a line start, a
greater-than sign followed by whitespace up to the end of the line. -/
def idleAt (atStart : Bool) (l : List Char) : Option (List Char) :=
  if atStart then
    match l with
    | '>' :: rest =>
      (idleBacktrack (spanCount isPySpace rest) rest).map (fun j => '>' :: rest.take j)
    | _ => none
  else none

/-- re.search over the text: try the matcher at every position from left to
right, threading whether the position is a line start (start of text or the
position after a newline) for the multiline caret anchor. -/
def searchAux (mAt : Bool → List Char → Option (List Char)) :
    Bool → List Char → Option (List Char)
  | atStart, [] => mAt atStart []
  | atStart, c :: rest =>
    match mAt atStart (c :: rest) with
    | some m => some m
    | none => searchAux mAt (c = '\n') rest

/-- STATE_PATTERNS of the source: the matcher belonging to a state name. -/
def STATE_PATTERNS (name : String) : Bool → List Char → Option (List Char) :=
  if name = "error" then errorAt
  else if name = "checkpoint" then checkpointAt
  else if name = "plan_approval" then planApprovalAt
  else if name = "complete" then completeAt
  else if name = "waiting_input" then waitingInputAt
  else if name = "working" then workingAt
  else if name = "idle" then idleAt
  else fun _ _ => none

/-- STATE_PRIORITY of the source: the fixed order in which states are tried. -/
def STATE_PRIORITY : List String :=
  ["error", "checkpoint", "plan_approval", "complete", "waiting_input", "working", "idle"]

/-- Search for the pattern of a named state anywhere in the cleaned text. -/
def patternSearch (name : String) (l : List Char) : Option (List Char) :=
  searchAux (STATE_PATTERNS name) true l

/-- Result of detect_state: the state name and the matched substring, if any. -/
structure StateResult where
  state : String
  matched : Option String
deriving DecidableEq

/-- The loop of detect_state over the priority list: the first state whose
pattern matches the cleaned text wins. -/
def detectLoop : List String → List Char → StateResult
  | [], _ => ⟨"unknown", none⟩
  | name :: rest, l =>
    match patternSearch name l with
    | some m => ⟨name, some (String.mk m)⟩
    | none => detectLoop rest l

/-- detect_state of the source: empty input is unknown, otherwise the input
is ANSI-stripped and the states are tried in priority order. -/
def detect_state (text : String) : StateResult :=
  if text = "" then ⟨"unknown", none⟩
  else detectLoop STATE_PRIORITY (strip_ansi text).data

/-- Whether the pattern of a named state matches anywhere in a cleaned text. -/
def stateMatches (name : String) (clean : String) : Bool :=
  (patternSearch name clean.data).isSome

/-! ## Decoded JSON values and Python-level failures -/

/-- A decoded JSON value, as produced by parsing one protocol line.  Numbers
are modelled as integers: the protocol only carries integral line counts. -/
inductive JValue where
  | null
  | bool (b : Bool)
  | num (n : Int)
  | str (s : String)
  | arr (elems : List JValue)
  | obj (entries : List (String × JValue))

/-- An uncaught Python exception, carrying its display message. -/
inductive PyErr where
  | attributeError (msg : String)
  | typeError (msg : String)
  | unboundLocal (msg : String)
  | driver (msg : String)

/-- str(e) on an exception: its message. -/
def pyErrStr : PyErr → String
  | .attributeError m => m
  | .typeError m => m
  | .unboundLocal m => m
  | .driver m => m

/-- The Python type name of a decoded value, used in exception messages. -/
def pyTypeName : JValue → String
  | .null => "NoneType"
  | .bool _ => "bool"
  | .num _ => "int"
  | .str _ => "str"
  | .arr _ => "list"
  | .obj _ => "dict"

/-- Lookup of a key in the entry list of a decoded JSON object. -/
def jLookup : List (String × JValue) → String → Option JValue
  | [], _ => none
  | (k, v) :: rest, key => if k = key then some v else jLookup rest key

/-- dict.get with a default. -/
def dictGet (entries : List (String × JValue)) (key : String) (dflt : JValue) : JValue :=
  match jLookup entries key with
  | some v => v
  | none => dflt

/-- cmd.get(key, default): succeeds on a decoded object, raises
AttributeError on every other decoded value, as the interpreter does. -/
def jget (v : JValue) (key : String) (dflt : JValue) : Except PyErr JValue :=
  match v with
  | .obj entries => .ok (dictGet entries key dflt)
  | other =>
    .error (.attributeError
      ("\x27" ++ pyTypeName other ++ "\x27 object has no attribute \x27get\x27"))

/-- env.items(): the entries of a decoded object, AttributeError otherwise. -/
def jItems (v : JValue) : Except PyErr (List (String × JValue)) :=
  match v with
  | .obj entries => .ok entries
  | other =>
    .error (.attributeError
      ("\x27" ++ pyTypeName other ++ "\x27 object has no attribute \x27items\x27"))

/-- Python truthiness of a decoded value. -/
def jTruthy : JValue → Bool
  | .null => false
  | .bool b => b
  | .num n => n != 0
  | .str s => s != ""
  | .arr elems => !elems.isEmpty
  | .obj entries => !entries.isEmpty

/-- Equality test of a decoded value against a string literal, as the
comparison of an action field with an action name behaves in the source:
false for every non-string value. -/
def JValue.eqStr : JValue → String → Bool
  | .str s, t => s == t
  | _, _ => false

/-- str() of a decoded value as interpolated into message strings.  Scalars
and strings follow the interpreter; the rendering of containers is
abbreviated, no protocol field the development reasons about is a container. -/
def pyStr : JValue → String
  | .null => "None"
  | .bool true => "True"
  | .bool false => "False"
  | .num n => toString n
  | .str s => s
  | .arr _ => "[...]"
  | .obj _ => "..."

/-- Use of a decoded value where a string is required by concatenation,
TypeError otherwise. -/
def asStr : JValue → Except PyErr String
  | .str s => .ok s
  | other =>
    .error (.typeError ("can only concatenate str (not \x22" ++ pyTypeName other ++ "\x22) to str"))

/-- Use of a decoded value where an integer line count is required. -/
def asInt : JValue → Except PyErr Int
  | .num n => .ok n
  | other => .error (.typeError ("\x27" ++ pyTypeName other ++ "\x27 object cannot be interpreted as an integer"))

/-- A string option rendered as a JSON field value: absent becomes null. -/
def jOfOptStr : Option String → JValue
  | none => JValue.null
  | some s => JValue.str s

/-! ## TerminalDriver, sessions and the registry -/

/-- A live session handle of the terminal driver, exposing its stable
identifier. -/
structure Session where
  sessionId : String
deriving DecidableEq

/-- A window handle; currentSession models window.current_tab.current_session. -/
structure Window where
  currentSession : Session
deriving DecidableEq

/-- A tab handle with its current session. -/
structure Tab where
  currentSession : Session
deriving DecidableEq

/-- The terminal automation surface the bridge drives.  Every operation
either succeeds or fails with a driver message; getContents already projects
each content line to its text. -/
structure Driver where
  currentWindow : Option Window
  createWindow : Except String Window
  createTab : Window → Except String Tab
  splitPane : Session → Bool → Except String Session
  sendText : Session → String → Except String Unit
  getContents : Session → Int → Int → Except String (List String)
  getVariable : Session → String → Except String (Option String)
  setVariable : Session → String → JValue → Except String Unit
  closeSession : Session → Except String Unit

/-- A failed driver call raised inside a handler. -/
def liftD : Except String α → Except PyErr α
  | .ok a => .ok a
  | .error m => .error (.driver m)

/-- The session registry: the insertion-ordered identifier-to-handle mapping
self.sessions.  Keys are the session identifiers generated by the driver. -/
abbrev Registry := List (String × Session)

/-- Registry lookup, the first binding of the key. -/
def rget : Registry → String → Option Session
  | [], _ => none
  | (k, s) :: rest, key => if k = key then some s else rget rest key

/-- Registry insertion with dict semantics: overwrite an existing binding in
place, otherwise append. -/
def rset : Registry → String → Session → Registry
  | [], key, s => [(key, s)]
  | (k, t) :: rest, key, s =>
    if k = key then (k, s) :: rest else (k, t) :: rset rest key s

/-- Registry deletion: every binding of the key is removed (a dict holds at
most one). -/
def rdel (reg : Registry) (key : String) : Registry :=
  reg.filter (fun kv => kv.1 != key)

/-- self.sessions.get on the decoded terminalId field: registry keys are the
driver's string identifiers, so only a string value can be found. -/
def sessionsGet (reg : Registry) (tid : JValue) : Option Session :=
  match tid with
  | .str t => rget reg t
  | _ => none

/-! ## Responses and handlers -/

/-- A response object: an ordered list of fields. -/
abbrev Resp := List (String × JValue)

/-- Field lookup in a response. -/
def oget : Resp → String → Option JValue := jLookup

/-- result[key] = value on a response: overwrite in place or append. -/
def oset : Resp → String → JValue → Resp
  | [], key, v => [(key, v)]
  | (k, w) :: rest, key, v =>
    if k = key then (key, v) :: rest else (k, w) :: oset rest key v

/-- An ok:false response with an error message. -/
def errResp (msg : String) : Resp :=
  [("ok", JValue.bool false), ("error", JValue.str msg)]

/-- The missing-session response, naming the requested identifier. -/
def notFoundResp (tid : JValue) : Resp :=
  errResp ("Session not found: " ++ pyStr tid)

/-- Sequencing of statements that may raise, the control flow of a Python
suite: a raised exception propagates, otherwise execution continues. -/
def pyBind (x : Except PyErr α) (f : α → Except PyErr β) : Except PyErr β :=
  match x with
  | .error e => .error e
  | .ok a => f a

/-- Reading the session local variable of the open handler: on the code path
that never assigned it, the interpreter raises UnboundLocalError. -/
def useSession : Option Session → Except PyErr Session
  | some s => .ok s
  | none =>
    .error (.unboundLocal
      "cannot access local variable \x27session\x27 where it is not associated with a value")

/-- The three-way session acquisition of the open handler.  The branch
structure mirrors the source, including the tab branch that creates a new
window without assigning the session local when no window is current. -/
def openAcquire (d : Driver) (cmd : JValue) (target : JValue) :
    Except PyErr (Window × Option Session) :=
  if target.eqStr "tab" then
    match d.currentWindow with
    | none => pyBind (liftD d.createWindow) (fun w => .ok (w, none))
    | some w => pyBind (liftD (d.createTab w)) (fun t => .ok (w, some t.currentSession))
  else if target.eqStr "split" then
    match d.currentWindow with
    | none => pyBind (liftD d.createWindow) (fun w => .ok (w, some w.currentSession))
    | some w =>
      pyBind (jget cmd "direction" (JValue.str "vertical")) (fun direction =>
      pyBind (liftD (d.splitPane w.currentSession (direction.eqStr "vertical")))
        (fun s => .ok (w, some s)))
  else
    pyBind (liftD d.createWindow) (fun w => .ok (w, some w.currentSession))

/-- The export loop of the open handler over the env entries. -/
def envLoop (d : Driver) (sessionVar : Option Session) :
    List (String × JValue) → Except PyErr Unit
  | [] => .ok ()
  | (k, v) :: rest =>
    pyBind (useSession sessionVar) (fun s =>
    pyBind (liftD (d.sendText s ("export " ++ k ++ "=\x22" ++ pyStr v ++ "\x22\n"))) (fun _ =>
    envLoop d sessionVar rest))

/-- The optional setup sends of the open handler: cwd, env exports, title,
command and badge, in source order; each first reads the session local. -/
def openSetup (d : Driver) (cmd : JValue) (sessionVar : Option Session)
    (cwd env title command : JValue) : Except PyErr Unit :=
  pyBind (if jTruthy cwd then
      pyBind (useSession sessionVar) (fun s =>
        liftD (d.sendText s ("cd " ++ pyStr cwd ++ "\n")))
    else .ok ()) (fun _ =>
  pyBind (jItems env) (fun items =>
  pyBind (envLoop d sessionVar items) (fun _ =>
  pyBind (if jTruthy title then
      pyBind (useSession sessionVar) (fun s =>
        liftD (d.sendText s ("printf \x27\\e]1;" ++ pyStr title ++ "\\a\x27\n")))
    else .ok ()) (fun _ =>
  pyBind (if jTruthy command then
      pyBind (useSession sessionVar) (fun s =>
      pyBind (asStr command) (fun cstr =>
        liftD (d.sendText s (cstr ++ "\n"))))
    else .ok ()) (fun _ =>
  pyBind (jget cmd "badge" (JValue.str "")) (fun badge =>
  if jTruthy badge then
    pyBind (useSession sessionVar) (fun s =>
      liftD (d.setVariable s "user.badge" badge))
  else .ok ()))))))

/-- The open handler: extract the option fields, acquire a session per the
target, run the optional setup, then register the session and answer with
its identifier and title. -/
def openHandler (d : Driver) (reg : Registry) (cmd : JValue) :
    Except PyErr (Resp × Registry) :=
  pyBind (jget cmd "command" (JValue.str "")) (fun command =>
  pyBind (jget cmd "title" (JValue.str "")) (fun title =>
  pyBind (jget cmd "cwd" (JValue.str "")) (fun cwd =>
  pyBind (jget cmd "env" (JValue.obj [])) (fun env =>
  pyBind (jget cmd "target" (JValue.str "window")) (fun target =>
  pyBind (openAcquire d cmd target) (fun acquired =>
  (fun (window : Window) (session0 : Option Session) =>
    (fun (sessionVar : Option Session) =>
      pyBind (openSetup d cmd sessionVar cwd env title command) (fun _ =>
      pyBind (useSession sessionVar) (fun s =>
        .ok ([("ok", JValue.bool true),
              ("terminalId", JValue.str s.sessionId),
              ("title", if jTruthy title then title else JValue.str s.sessionId)],
             rset reg s.sessionId s))))
      (if target.eqStr "tab" then session0
       else if !(target.eqStr "split") then some window.currentSession
       else session0))
    acquired.1 acquired.2))))))

/-- The close handler: missing sessions answer ok:false; for a found session
the driver close is attempted and every exception from it is swallowed, then
the binding is deleted and ok:true returned. -/
def closeHandler (d : Driver) (reg : Registry) (cmd : JValue) :
    Except PyErr (Resp × Registry) :=
  pyBind (jget cmd "terminalId" (JValue.str "")) (fun tid =>
  match sessionsGet reg tid with
  | none => .ok (notFoundResp tid, reg)
  | some s =>
    match tid with
    | .str t =>
      match d.closeSession s with
      | .ok _ => .ok ([("ok", JValue.bool true)], rdel reg t)
      | .error _ => .ok ([("ok", JValue.bool true)], rdel reg t)
    | _ => .ok (notFoundResp tid, reg))

/-- The send handler: missing sessions answer ok:false, otherwise the
command text plus newline is sent. -/
def sendHandler (d : Driver) (reg : Registry) (cmd : JValue) :
    Except PyErr (Resp × Registry) :=
  pyBind (jget cmd "terminalId" (JValue.str "")) (fun tid =>
  pyBind (jget cmd "command" (JValue.str "")) (fun command =>
  match sessionsGet reg tid with
  | none => .ok (notFoundResp tid, reg)
  | some s =>
    pyBind (asStr command) (fun cstr =>
    pyBind (liftD (d.sendText s (cstr ++ "\n"))) (fun _ =>
      .ok ([("ok", JValue.bool true)], reg)))))

/-- The read handler: fetch the requested number of lines, join them, strip
ANSI unless raw is truthy. -/
def readHandler (d : Driver) (reg : Registry) (cmd : JValue) :
    Except PyErr (Resp × Registry) :=
  pyBind (jget cmd "terminalId" (JValue.str "")) (fun tid =>
  pyBind (jget cmd "lines" (JValue.num 50)) (fun lines =>
  pyBind (jget cmd "raw" (JValue.bool false)) (fun raw =>
  match sessionsGet reg tid with
  | none => .ok (notFoundResp tid, reg)
  | some s =>
    pyBind (asInt lines) (fun n =>
    pyBind (liftD (d.getContents s 0 n)) (fun contents =>
      (fun output =>
        .ok ([("ok", JValue.bool true),
              ("output", JValue.str (if jTruthy raw then output else strip_ansi output))], reg))
        (String.intercalate "\n" contents))))))

/-- The list handler: every registry entry is reported; a failing name fetch
marks the entry alive:false instead of failing the request. -/
def listHandler (d : Driver) (reg : Registry) (_cmd : JValue) :
    Except PyErr (Resp × Registry) :=
  .ok ([("ok", JValue.bool true),
        ("sessions", JValue.arr (reg.map (fun kv =>
          match d.getVariable kv.2 "session.name" with
          | .ok name? =>
            JValue.obj [("terminalId", JValue.str kv.1),
                        ("title", JValue.str
                          (match name? with
                           | some n => if n != "" then n else kv.1
                           | none => kv.1)),
                        ("alive", JValue.bool true)]
          | .error _ =>
            JValue.obj [("terminalId", JValue.str kv.1),
                        ("title", JValue.str kv.1),
                        ("alive", JValue.bool false)])))], reg)

/-- The detect handler: fetch the requested lines, join them and classify. -/
def detectHandler (d : Driver) (reg : Registry) (cmd : JValue) :
    Except PyErr (Resp × Registry) :=
  pyBind (jget cmd "terminalId" (JValue.str "")) (fun tid =>
  pyBind (jget cmd "lines" (JValue.num 20)) (fun lines =>
  match sessionsGet reg tid with
  | none => .ok (notFoundResp tid, reg)
  | some s =>
    pyBind (asInt lines) (fun n =>
    pyBind (liftD (d.getContents s 0 n)) (fun contents =>
      (fun info =>
        .ok ([("ok", JValue.bool true),
              ("state", JValue.str info.state),
              ("match", jOfOptStr info.matched)], reg))
        (detect_state (String.intercalate "\n" contents))))))

/-- The badge handler: set the badge variable on the session. -/
def badgeHandler (d : Driver) (reg : Registry) (cmd : JValue) :
    Except PyErr (Resp × Registry) :=
  pyBind (jget cmd "terminalId" (JValue.str "")) (fun tid =>
  pyBind (jget cmd "text" (JValue.str "")) (fun btext =>
  match sessionsGet reg tid with
  | none => .ok (notFoundResp tid, reg)
  | some s =>
    pyBind (liftD (d.setVariable s "user.badge" btext)) (fun _ =>
      .ok ([("ok", JValue.bool true)], reg))))

/-- The action dispatch of handle_command, in source order, with the
unknown-action fallback naming the action. -/
def dispatch (d : Driver) (reg : Registry) (cmd : JValue) (action : JValue) :
    Except PyErr (Resp × Registry) :=
  if action.eqStr "open" then openHandler d reg cmd
  else if action.eqStr "close" then closeHandler d reg cmd
  else if action.eqStr "send" then sendHandler d reg cmd
  else if action.eqStr "read" then readHandler d reg cmd
  else if action.eqStr "list" then listHandler d reg cmd
  else if action.eqStr "detect" then detectHandler d reg cmd
  else if action.eqStr "badge" then badgeHandler d reg cmd
  else if action.eqStr "ping" then .ok ([("ok", JValue.bool true), ("pong", JValue.bool true)], reg)
  else .ok ([("ok", JValue.bool false),
             ("error", JValue.str ("Unknown action: " ++ pyStr action))], reg)

/-- handle_command of the source: the action and id fields are read before
the protective try block, so those two reads can still raise; every failure
inside the dispatch is converted to an ok:false response with the exception
message and leaves the registry as it was. -/
def handle_command (d : Driver) (reg : Registry) (cmd : JValue) :
    Except PyErr (Resp × Registry) :=
  pyBind (jget cmd "action" (JValue.str "")) (fun action =>
  pyBind (jget cmd "id" (JValue.str "")) (fun _reqId =>
  match dispatch d reg cmd action with
  | .ok r => .ok r
  | .error e => .ok (errResp (pyErrStr e), reg)))

/-! ## The protocol loops -/

/-- One stripped input line after the JSON decoding step: blank (skipped),
invalid JSON with the decoder detail, or a decoded value. -/
inductive LineInput where
  | blank
  | invalid (detail : String)
  | value (v : JValue)

/-- One iteration of the connected protocol loop on a stripped line: blank
lines produce no response, invalid JSON is answered locally with an empty id,
and a decoded value has its id read (outside any try block) before the
command is handled and the id stamped onto the response. -/
def processLine (d : Driver) (reg : Registry) (inp : LineInput) :
    Except PyErr (Option Resp × Registry) :=
  match inp with
  | .blank => .ok (none, reg)
  | .invalid detail =>
    .ok (some [("ok", JValue.bool false),
               ("error", JValue.str ("Invalid JSON: " ++ detail)),
               ("id", JValue.str "")], reg)
  | .value cmd =>
    pyBind (jget cmd "id" (JValue.str "")) (fun reqId =>
    pyBind (handle_command d reg cmd) (fun result =>
      .ok (some (oset result.1 "id" reqId), result.2)))

/-- detect_state as applied to a decoded text field in the standalone loop:
falsy values classify as unknown before any type is inspected, a non-empty
string is classified, and every other value makes the regex engine raise. -/
def detectStateJ (v : JValue) : Except PyErr StateResult :=
  if !(jTruthy v) then .ok ⟨"unknown", none⟩
  else
    match v with
    | .str s => .ok (detect_state s)
    | other => .error (.typeError ("expected string or bytes-like object, got \x27" ++ pyTypeName other ++ "\x27"))

/-- One iteration of the standalone-mode loop on a stripped line.  Only the
JSON decoding error is caught there: an invalid line is answered with the
bare decoder message and no id field, and any exception raised after
decoding propagates. -/
def standaloneLine (inp : LineInput) : Except PyErr (Option Resp) :=
  match inp with
  | .blank => .ok none
  | .invalid detail =>
    .ok (some [("ok", JValue.bool false), ("error", JValue.str detail)])
  | .value cmd =>
    pyBind (jget cmd "id" (JValue.str "")) (fun reqId =>
    pyBind (jget cmd "action" (JValue.str "")) (fun action =>
    if action.eqStr "ping" then
      .ok (some [("id", reqId), ("ok", JValue.bool true), ("pong", JValue.bool true)])
    else if action.eqStr "detect_text" then
      pyBind (jget cmd "text" (JValue.str "")) (fun text =>
      pyBind (detectStateJ text) (fun result =>
        .ok (some [("id", reqId), ("ok", JValue.bool true),
                   ("state", JValue.str result.state),
                   ("match", jOfOptStr result.matched)])))
    else
      .ok (some [("id", reqId), ("ok", JValue.bool false),
                 ("error", JValue.str "Standalone mode: only ping and detect_text supported")])))

/-! ## Concrete fixtures for witnesses and counterexamples -/

/-- A session used by the concrete scenarios. -/
def testSession : Session := ⟨"t1"⟩

/-- A window used by the concrete scenarios. -/
def testWindow : Window := ⟨⟨"w-main"⟩⟩

/-- A driver on which every operation succeeds and no window is current. -/
def okDriver : Driver where
  currentWindow := none
  createWindow := .ok testWindow
  createTab := fun _ => .ok ⟨⟨"tab-s"⟩⟩
  splitPane := fun _ _ => .ok ⟨"split-s"⟩
  sendText := fun _ _ => .ok ()
  getContents := fun _ _ _ => .ok ["line one"]
  getVariable := fun _ _ => .ok (some "name")
  setVariable := fun _ _ _ => .ok ()
  closeSession := fun _ => .ok ()

/-- A driver whose close operation fails with a connection error, which is
not an already-closed condition. -/
def lostDriver : Driver :=
  { okDriver with closeSession := fun _ => .error "ConnectionError: connection to iTerm2 lost" }

/-- A driver on which every fallible operation fails, for the driver-failure
scenarios. -/
def boomDriver : Driver :=
  { okDriver with
    createWindow := .error "create failed"
    sendText := fun _ _ => .error "send failed"
    getContents := fun _ _ _ => .error "contents failed"
    getVariable := fun _ _ => .error "name fetch failed"
    setVariable := fun _ _ _ => .error "variable failed"
    closeSession := fun _ => .error "boom" }

/-- A driver that acquires sessions normally but fails every setup
operation on them: text sends and variable sets. -/
def setupFailDriver : Driver :=
  { okDriver with
    sendText := fun _ _ => .error "send failed"
    setVariable := fun _ _ _ => .error "variable failed" }

/-- A driver with a current window whose tab creation fails. -/
def tabFailDriver : Driver :=
  { okDriver with
    currentWindow := some testWindow
    createTab := fun _ => .error "tab failed" }

/-- A driver with a current window whose pane split fails. -/
def splitFailDriver : Driver :=
  { okDriver with
    currentWindow := some testWindow
    splitPane := fun _ _ => .error "split failed" }

/-- A canonical request carrying an action and a terminal identifier. -/
def mkCmd (action tid : String) : JValue :=
  JValue.obj [("id", JValue.str "r1"), ("action", JValue.str action),
              ("terminalId", JValue.str tid)]

/-- A canonical open request with only a target. -/
def mkOpenCmd (target : String) : JValue :=
  JValue.obj [("id", JValue.str "r1"), ("action", JValue.str "open"),
              ("target", JValue.str target)]

/-- A canonical request carrying only an action. -/
def mkActionCmd (action : String) : JValue :=
  JValue.obj [("id", JValue.str "r1"), ("action", JValue.str action)]

/-- A canonical open request carrying one extra option field and no target,
so the default window target is used. -/
def mkOpenWith (field : String) (v : JValue) : JValue :=
  JValue.obj [("id", JValue.str "r1"), ("action", JValue.str "open"), (field, v)]

/-- Presence test for ESC, used to state when the filter is a fixed point. -/
def hasEsc : List Char → Bool
  | [] => false
  | c :: rest => c = ESC || hasEsc rest

end Bridge


namespace Bridge

/-! ## Helper lemmas -/

/-- A literal search over an ESC-free list changes nothing: every ANSI match
starts with ESC. -/
theorem ansiMatchLen_none_of_ne (c : Char) (rest : List Char) (hc : c ≠ ESC) :
    ansiMatchLen (c :: rest) = none := by
  cases rest <;> simp [ansiMatchLen, hc]

theorem subScan_no_esc (l : List Char) (h : hasEsc l = false) : subScan l 0 = l := by
  induction l with
  | nil => rfl
  | cons c rest ih =>
    simp only [hasEsc, Bool.or_eq_false_iff, decide_eq_false_iff_not] at h
    simp only [subScan, ansiMatchLen_none_of_ne c rest h.1]
    exact congrArg (c :: ·) (ih h.2)

/-- An ESC-free string is a fixed point of the filter. -/
theorem strip_ansi_fixed (y : String) (h : hasEsc y.data = false) : strip_ansi y = y := by
  rw [strip_ansi]
  by_cases hy : y = ""
  · rw [if_pos hy, hy]
  · rw [if_neg hy, subScan_no_esc y.data h]

theorem litAt_isSome_of_prefix (lits : List (List Char)) (w : List Char)
    (hw : w ∈ lits) (l : List Char) (hp : w.isPrefixOf l = true) :
    (litAt lits l).isSome = true := by
  induction lits with
  | nil => cases hw
  | cons a as ih =>
    simp only [litAt]
    by_cases h : a.isPrefixOf l = true
    · simp [h]
    · rcases List.mem_cons.mp hw with rfl | hw'
      · exact absurd hp h
      · simp only [Bool.not_eq_true] at h
        simp only [h, Bool.false_eq_true, if_false]
        exact ih hw'

theorem searchAux_error_isSome (b : Bool) (l : List Char)
    (h : cs "Traceback" <:+: l) : (searchAux errorAt b l).isSome = true := by
  induction l generalizing b with
  | nil =>
    rw [List.infix_nil] at h
    exact absurd h (by decide)
  | cons c rest ih =>
    simp only [searchAux]
    cases hm : errorAt b (c :: rest) with
    | some m => simp
    | none =>
      rcases List.infix_cons_iff.mp h with hpre | hinf
      · have hp : (cs "Traceback").isPrefixOf (c :: rest) = true :=
          List.isPrefixOf_iff_prefix.mpr hpre
        have hs : (litAt errorLits (c :: rest)).isSome = true :=
          litAt_isSome_of_prefix errorLits (cs "Traceback") (by decide) (c :: rest) hp
        rw [show errorAt b (c :: rest) = litAt errorLits (c :: rest) from rfl] at hm
        rw [hm] at hs
        simp at hs
      · exact ih _ hinf

theorem detectLoop_skip (name : String) (rest : List String) (l : List Char)
    (h : patternSearch name l = none) :
    detectLoop (name :: rest) l = detectLoop rest l := by
  simp [detectLoop, h]

theorem detectLoop_hit (name : String) (rest : List String) (l : List Char)
    (m : List Char) (h : patternSearch name l = some m) :
    detectLoop (name :: rest) l = ⟨name, some (String.mk m)⟩ := by
  simp [detectLoop, h]

theorem isSome_false_eq_none {α : Type} {x : Option α} (h : x.isSome = false) :
    x = none := by
  cases x <;> simp_all

/-- Stamping the id onto a response makes it readable back. -/
theorem oget_oset_self (r : Resp) (key : String) (v : JValue) :
    oget (oset r key v) key = some v := by
  induction r with
  | nil => simp [oset, oget, jLookup]
  | cons kv rest ih =>
    obtain ⟨k, w⟩ := kv
    by_cases h : k = key
    · simp [oset, oget, jLookup, h]
    · simp [oset, oget, jLookup, h] at ih ⊢
      exact ih

/-- After deletion the key has no binding. -/
theorem rget_rdel_self (reg : Registry) (key : String) :
    rget (rdel reg key) key = none := by
  induction reg with
  | nil => rfl
  | cons kv rest ih =>
    obtain ⟨k, s⟩ := kv
    by_cases h : k = key
    · simpa [rdel, List.filter_cons, h] using ih
    · simpa [rdel, List.filter_cons, h, rget] using ih

/-- On a decoded object the router never lets an exception escape: the two
field reads succeed and the dispatch is wrapped in the protective try. -/
theorem handle_command_obj_ok (d : Driver) (reg : Registry)
    (entries : List (String × JValue)) :
    ∃ p, handle_command d reg (JValue.obj entries) = .ok p := by
  cases h : dispatch d reg (JValue.obj entries) (dictGet entries "action" (JValue.str "")) with
  | ok r => exact ⟨r, by simp [handle_command, jget, pyBind, h]⟩
  | error e => exact ⟨(errResp (pyErrStr e), reg), by simp [handle_command, jget, pyBind, h]⟩

end Bridge

namespace Bridge

/-! ## Claim theorems -/

/-- Claim C1: for every input text whose cleaned form triggers one or more
states, detect_state returns the single highest-priority matching state in
the fixed order error, checkpoint, plan_approval, complete, waiting_input,
working, idle; in particular, any text whose cleaned form contains the error
trigger Traceback — also when an idle trigger such as a lone prompt line is
present — is classified error and never idle. -/
theorem c1_detect_state_priority :
    (∀ text : String, text ≠ "" → ∀ s ∈ STATE_PRIORITY,
        stateMatches s (strip_ansi text) = true →
        (∀ t ∈ STATE_PRIORITY,
            STATE_PRIORITY.indexOf t < STATE_PRIORITY.indexOf s →
            stateMatches t (strip_ansi text) = false) →
        (detect_state text).state = s) ∧
    (∀ text : String, cs "Traceback" <:+: (strip_ansi text).data →
        (detect_state text).state = "error" ∧ (detect_state text).state ≠ "idle") := by
  constructor
  · intro text hne s hs hm hprev
    rw [detect_state, if_neg hne]
    obtain ⟨m, hm'⟩ := Option.isSome_iff_exists.mp hm
    fin_cases hs
    · rw [STATE_PRIORITY, detectLoop_hit _ _ _ m hm']
    · rw [STATE_PRIORITY,
        detectLoop_skip _ _ _ (isSome_false_eq_none (hprev "error" (by decide) (by decide))),
        detectLoop_hit _ _ _ m hm']
    · rw [STATE_PRIORITY,
        detectLoop_skip _ _ _ (isSome_false_eq_none (hprev "error" (by decide) (by decide))),
        detectLoop_skip _ _ _ (isSome_false_eq_none (hprev "checkpoint" (by decide) (by decide))),
        detectLoop_hit _ _ _ m hm']
    · rw [STATE_PRIORITY,
        detectLoop_skip _ _ _ (isSome_false_eq_none (hprev "error" (by decide) (by decide))),
        detectLoop_skip _ _ _ (isSome_false_eq_none (hprev "checkpoint" (by decide) (by decide))),
        detectLoop_skip _ _ _ (isSome_false_eq_none (hprev "plan_approval" (by decide) (by decide))),
        detectLoop_hit _ _ _ m hm']
    · rw [STATE_PRIORITY,
        detectLoop_skip _ _ _ (isSome_false_eq_none (hprev "error" (by decide) (by decide))),
        detectLoop_skip _ _ _ (isSome_false_eq_none (hprev "checkpoint" (by decide) (by decide))),
        detectLoop_skip _ _ _ (isSome_false_eq_none (hprev "plan_approval" (by decide) (by decide))),
        detectLoop_skip _ _ _ (isSome_false_eq_none (hprev "complete" (by decide) (by decide))),
        detectLoop_hit _ _ _ m hm']
    · rw [STATE_PRIORITY,
        detectLoop_skip _ _ _ (isSome_false_eq_none (hprev "error" (by decide) (by decide))),
        detectLoop_skip _ _ _ (isSome_false_eq_none (hprev "checkpoint" (by decide) (by decide))),
        detectLoop_skip _ _ _ (isSome_false_eq_none (hprev "plan_approval" (by decide) (by decide))),
        detectLoop_skip _ _ _ (isSome_false_eq_none (hprev "complete" (by decide) (by decide))),
        detectLoop_skip _ _ _ (isSome_false_eq_none (hprev "waiting_input" (by decide) (by decide))),
        detectLoop_hit _ _ _ m hm']
    · rw [STATE_PRIORITY,
        detectLoop_skip _ _ _ (isSome_false_eq_none (hprev "error" (by decide) (by decide))),
        detectLoop_skip _ _ _ (isSome_false_eq_none (hprev "checkpoint" (by decide) (by decide))),
        detectLoop_skip _ _ _ (isSome_false_eq_none (hprev "plan_approval" (by decide) (by decide))),
        detectLoop_skip _ _ _ (isSome_false_eq_none (hprev "complete" (by decide) (by decide))),
        detectLoop_skip _ _ _ (isSome_false_eq_none (hprev "waiting_input" (by decide) (by decide))),
        detectLoop_skip _ _ _ (isSome_false_eq_none (hprev "working" (by decide) (by decide))),
        detectLoop_hit _ _ _ m hm']
  · intro text hinf
    have hne : text ≠ "" := by
      intro heq
      rw [heq] at hinf
      rw [show strip_ansi "" = "" from rfl] at hinf
      rw [show ("" : String).data = [] from rfl, List.infix_nil] at hinf
      exact absurd hinf (by decide)
    have hsome : (patternSearch "error" (strip_ansi text).data).isSome = true := by
      rw [show patternSearch "error" (strip_ansi text).data =
            searchAux errorAt true (strip_ansi text).data from rfl]
      exact searchAux_error_isSome true _ hinf
    obtain ⟨m, hm'⟩ := Option.isSome_iff_exists.mp hsome
    have hstate : (detect_state text).state = "error" := by
      rw [detect_state, if_neg hne, STATE_PRIORITY, detectLoop_hit _ _ _ m hm']
    exact ⟨hstate, by rw [hstate]; decide⟩

/-- Claim C1 witness: concrete classifications obtained from the priority
theorem — a text carrying only the idle trigger classifies idle, and a text
carrying both the Traceback error trigger and a lone prompt line classifies
error, not idle. -/
theorem c1_witness :
    (detect_state "hello\n> \n").state = "idle" ∧
    ((detect_state "Traceback\n> \n").state = "error" ∧
      (detect_state "Traceback\n> \n").state ≠ "idle") :=
  ⟨c1_detect_state_priority.1 "hello\n> \n" (by decide) "idle" (by decide) (by decide)
      (by intro t ht hlt; revert hlt; fin_cases ht <;> decide),
   c1_detect_state_priority.2 "Traceback\n> \n" (by decide)⟩

end Bridge

namespace Bridge

/-- Claim C2: the claim states every failure raised while handling a decoded
request is caught at the router boundary and answered with ok:false.  The
code reads the id field of the decoded value in the loop body outside every
try block, so an input line whose JSON decodes to a non-object value — here
the number 42 — raises an AttributeError that nothing catches and the
process dies instead of answering. -/
theorem c2_nonobject_line_uncaught :
    ∀ (d : Driver) (reg : Registry),
      processLine d reg (LineInput.value (JValue.num 42)) =
        .error (PyErr.attributeError "\x27int\x27 object has no attribute \x27get\x27") :=
  fun _ _ => rfl

/-- Claim C3 counterexample: AnsiFilter is not idempotent.  Removing the
escape sequence ESC-bracket-A from the input splices the leading ESC onto
the trailing bracket-0-m, forming a new escape sequence that a second
application removes. -/
theorem c3_counterexample :
    strip_ansi (strip_ansi "\x1B\x1B[A[0m") ≠ strip_ansi "\x1B\x1B[A[0m" := by decide

/-- Claim C3 (amended): AnsiFilter of the empty string is the empty string,
and applying AnsiFilter twice equals applying it once for every input whose
once-filtered text no longer contains the ESC character (in particular for
every ESC-free input); unrestricted idempotence fails because removing a
match can splice the surrounding characters into a new escape sequence. -/
theorem c3_amended :
    strip_ansi "" = "" ∧
    ∀ x : String, hasEsc (strip_ansi x).data = false →
      strip_ansi (strip_ansi x) = strip_ansi x :=
  ⟨rfl, fun x h => strip_ansi_fixed (strip_ansi x) h⟩

/-- Claim C3 amended witness: a concrete input whose filtered form is
ESC-free, with the double application collapsing by the amended theorem. -/
theorem c3_amended_witness :
    hasEsc (strip_ansi "\x1B[31mhi\x1B[0m").data = false ∧
    strip_ansi (strip_ansi "\x1B[31mhi\x1B[0m") = strip_ansi "\x1B[31mhi\x1B[0m" :=
  ⟨by decide, c3_amended.2 "\x1B[31mhi\x1B[0m" (by decide)⟩

/-- Claim C4: for every terminal identifier without a registry binding, each
of the actions send, read, detect, badge and close answers ok:false with an
error string naming the missing identifier, raises nothing, and leaves the
registry unchanged. -/
theorem c4_missing_session_reported :
    ∀ (d : Driver) (reg : Registry) (tid : String), rget reg tid = none →
      ∀ a ∈ (["send", "read", "detect", "badge", "close"] : List String),
        handle_command d reg (mkCmd a tid) =
          .ok ([("ok", JValue.bool false),
                ("error", JValue.str ("Session not found: " ++ tid))], reg) := by
  intro d reg tid h a ha
  fin_cases ha
  · simp [handle_command, mkCmd, jget, dictGet, jLookup, dispatch, JValue.eqStr,
      sendHandler, pyBind, sessionsGet, h, notFoundResp, errResp, pyStr]
  · simp [handle_command, mkCmd, jget, dictGet, jLookup, dispatch, JValue.eqStr,
      readHandler, pyBind, sessionsGet, h, notFoundResp, errResp, pyStr]
  · simp [handle_command, mkCmd, jget, dictGet, jLookup, dispatch, JValue.eqStr,
      detectHandler, pyBind, sessionsGet, h, notFoundResp, errResp, pyStr]
  · simp [handle_command, mkCmd, jget, dictGet, jLookup, dispatch, JValue.eqStr,
      badgeHandler, pyBind, sessionsGet, h, notFoundResp, errResp, pyStr]
  · simp [handle_command, mkCmd, jget, dictGet, jLookup, dispatch, JValue.eqStr,
      closeHandler, pyBind, sessionsGet, h, notFoundResp, errResp, pyStr]

/-- Claim C4 witness: the send action on an empty registry and an unknown
identifier, answered by the missing-session response. -/
theorem c4_witness :
    (rget [] "ghost" = none ∧
      ("send" : String) ∈ (["send", "read", "detect", "badge", "close"] : List String)) ∧
    handle_command okDriver [] (mkCmd "send" "ghost") =
      .ok ([("ok", JValue.bool false),
            ("error", JValue.str ("Session not found: " ++ "ghost"))], []) :=
  ⟨⟨rfl, by decide⟩, c4_missing_session_reported okDriver [] "ghost" rfl "send" (by decide)⟩

/-- Claim C5: the claim states every open request on a successful driver
acquires and registers exactly one session and answers ok:true for every
target, also when no window is current.  On the tab target without a current
window the code creates the window but never assigns its session local (the
source comment claiming the session is already assigned is wrong on this
path), so the first use raises UnboundLocalError, the router converts it to
ok:false, and nothing is registered. -/
theorem c5_open_tab_without_window_bug :
    handle_command okDriver [] (mkOpenCmd "tab") =
      .ok ([("ok", JValue.bool false),
            ("error", JValue.str
              "cannot access local variable \x27session\x27 where it is not associated with a value")],
           []) := rfl

end Bridge

namespace Bridge

/-- Claim C6 counterexample: the claim states an invalid-JSON line is
answered with an id equal to the empty string in both loops, but the
standalone-mode loop answers such a line with no id field at all. -/
theorem c6_counterexample :
    standaloneLine (LineInput.invalid "Expecting value: line 1 column 1") =
      .ok (some [("ok", JValue.bool false),
                 ("error", JValue.str "Expecting value: line 1 column 1")]) ∧
    oget [("ok", JValue.bool false),
          ("error", JValue.str "Expecting value: line 1 column 1")] "id" = none :=
  ⟨rfl, rfl⟩

/-- Claim C6 (amended): in the connected loop every response id equals the
request id (the id field of the decoded object, defaulting to the empty
string), and invalid-JSON lines are answered with an empty id; in the
standalone loop responses to decoded objects carry the request id, but an
invalid-JSON line is answered with no id field at all. -/
theorem c6_response_id_amended :
    (∀ (d : Driver) (reg : Registry) (detail : String) (r : Resp) (reg2 : Registry),
        processLine d reg (LineInput.invalid detail) = .ok (some r, reg2) →
        oget r "id" = some (JValue.str "")) ∧
    (∀ (d : Driver) (reg : Registry) (entries : List (String × JValue))
        (r : Resp) (reg2 : Registry),
        processLine d reg (LineInput.value (JValue.obj entries)) = .ok (some r, reg2) →
        oget r "id" = some (dictGet entries "id" (JValue.str ""))) ∧
    (∀ (entries : List (String × JValue)) (r : Resp),
        standaloneLine (LineInput.value (JValue.obj entries)) = .ok (some r) →
        oget r "id" = some (dictGet entries "id" (JValue.str ""))) ∧
    (∀ (detail : String) (r : Resp),
        standaloneLine (LineInput.invalid detail) = .ok (some r) →
        oget r "id" = none) := by
  refine ⟨?_, ?_, ?_, ?_⟩
  · intro d reg detail r reg2 h
    rw [processLine] at h
    obtain ⟨h1, _⟩ := Prod.mk.injEq .. ▸ (Except.ok.injEq .. ▸ h)
    cases Option.some.injEq .. ▸ h1.symm
    rfl
  · intro d reg entries r reg2 h
    obtain ⟨⟨result, regOut⟩, hh⟩ := handle_command_obj_ok d reg entries
    rw [processLine, jget, pyBind, hh, pyBind] at h
    obtain ⟨h1, _⟩ := Prod.mk.injEq .. ▸ (Except.ok.injEq .. ▸ h)
    cases Option.some.injEq .. ▸ h1.symm
    exact oget_oset_self result "id" (dictGet entries "id" (JValue.str ""))
  · intro entries r h
    rw [standaloneLine, jget, pyBind, jget, pyBind] at h
    by_cases hping : (dictGet entries "action" (JValue.str "")).eqStr "ping" = true
    · rw [if_pos hping] at h
      cases Option.some.injEq .. ▸ (Except.ok.injEq .. ▸ h).symm
      rfl
    · rw [if_neg hping] at h
      by_cases hdet : (dictGet entries "action" (JValue.str "")).eqStr "detect_text" = true
      · rw [if_pos hdet, jget, pyBind] at h
        cases hres : detectStateJ (dictGet entries "text" (JValue.str "")) with
        | ok info =>
          rw [hres, pyBind] at h
          cases Option.some.injEq .. ▸ (Except.ok.injEq .. ▸ h).symm
          rfl
        | error e =>
          rw [hres, pyBind] at h
          exact absurd h (by simp)
      · rw [if_neg hdet] at h
        cases Option.some.injEq .. ▸ (Except.ok.injEq .. ▸ h).symm
        rfl
  · intro detail r h
    rw [standaloneLine] at h
    cases Option.some.injEq .. ▸ (Except.ok.injEq .. ▸ h).symm
    rfl

/-- Claim C6 witness: the connected loop answers an invalid line with an
empty id and stamps the request id q7 onto a ping response. -/
theorem c6_witness :
    (processLine okDriver [] (LineInput.invalid "bad") =
        .ok (some [("ok", JValue.bool false), ("error", JValue.str "Invalid JSON: bad"),
                   ("id", JValue.str "")], []) ∧
      oget [("ok", JValue.bool false), ("error", JValue.str "Invalid JSON: bad"),
            ("id", JValue.str "")] "id" = some (JValue.str "")) ∧
    (processLine okDriver []
        (LineInput.value (JValue.obj [("id", JValue.str "q7"), ("action", JValue.str "ping")])) =
        .ok (some [("ok", JValue.bool true), ("pong", JValue.bool true),
                   ("id", JValue.str "q7")], []) ∧
      oget [("ok", JValue.bool true), ("pong", JValue.bool true),
            ("id", JValue.str "q7")] "id" = some (JValue.str "q7")) :=
  ⟨⟨rfl, c6_response_id_amended.1 okDriver [] "bad" _ [] rfl⟩,
   ⟨rfl, c6_response_id_amended.2.1 okDriver []
      [("id", JValue.str "q7"), ("action", JValue.str "ping")] _ [] rfl⟩⟩

end Bridge

namespace Bridge

/-- Claim C7 counterexample: the claim states only an already-closed-session
error is swallowed during close and every other driver failure is surfaced.
A connection-loss failure from the driver close call is swallowed too: the
response is ok:true with no error and the binding is removed. -/
theorem c7_counterexample :
    handle_command lostDriver [("t1", Session.mk "t1")] (mkCmd "close" "t1") =
      .ok ([("ok", JValue.bool true)], []) := rfl

/-- Claim C7 (amended): during close of a registered session every driver
failure from the close call — already-closed or not — is swallowed: the
handler answers ok:true and removes the binding, and no close failure is
ever surfaced to the caller. -/
theorem c7_close_swallows_all :
    ∀ (d : Driver) (reg : Registry) (tid : String) (s : Session) (msg : String),
      rget reg tid = some s → d.closeSession s = .error msg →
      handle_command d reg (mkCmd "close" tid) =
        .ok ([("ok", JValue.bool true)], rdel reg tid) := by
  intro d reg tid s msg h1 h2
  simp [handle_command, mkCmd, jget, dictGet, jLookup, dispatch, JValue.eqStr,
    closeHandler, pyBind, sessionsGet, h1, h2]

/-- Claim C7 amended witness: a two-session registry on the connection-loss
driver, with close answering ok:true and removing only the named binding. -/
theorem c7_witness :
    (rget [("a0", Session.mk "a0"), ("t1", Session.mk "t1")] "t1" = some (Session.mk "t1") ∧
      lostDriver.closeSession (Session.mk "t1") =
        .error "ConnectionError: connection to iTerm2 lost") ∧
    handle_command lostDriver [("a0", Session.mk "a0"), ("t1", Session.mk "t1")]
        (mkCmd "close" "t1") =
      .ok ([("ok", JValue.bool true)],
           rdel [("a0", Session.mk "a0"), ("t1", Session.mk "t1")] "t1") :=
  ⟨⟨rfl, rfl⟩,
   c7_close_swallows_all lostDriver [("a0", Session.mk "a0"), ("t1", Session.mk "t1")]
     "t1" (Session.mk "t1") "ConnectionError: connection to iTerm2 lost" rfl rfl⟩

/-- Claim C8 counterexample: the claim states every driver failure during
handling yields ok:false with the failure message and leaves the registry
unchanged.  Two actions violate it: for close a failing driver call is
absorbed — the response is ok:true without the message and the registry
loses the binding — and for list a failing per-entry name fetch is answered
ok:true with the entry merely marked alive:false, not ok:false. -/
theorem c8_counterexample :
    (handle_command boomDriver [("t9", Session.mk "t9")] (mkCmd "close" "t9") =
        .ok ([("ok", JValue.bool true)], [])) ∧
    (handle_command boomDriver [("t9", Session.mk "t9")] (mkActionCmd "list") =
        .ok ([("ok", JValue.bool true),
              ("sessions", JValue.arr
                [JValue.obj [("terminalId", JValue.str "t9"),
                             ("title", JValue.str "t9"),
                             ("alive", JValue.bool false)]])],
             [("t9", Session.mk "t9")])) :=
  ⟨rfl, rfl⟩

/-- Claim C8 (amended): a TerminalDriver failure that reaches the router
boundary — for any action and any failure point — is answered ok:false
carrying the underlying failure message and leaves the registry unchanged,
and every driver failure during open (at each of its driver call sites:
window creation for the window target and for the windowless tab and split
targets, tab creation, pane splitting, the cwd, env, title and command
sends, and the badge variable set), send, read, detect and badge does reach
the router.  The two exceptions the counterexample exhibits: close swallows
a failing driver close, answering ok:true and still removing the entry, and
list absorbs a failing per-entry name fetch into an alive:false entry,
answering ok:true with the registry unchanged. -/
theorem c8_driver_failure_atomic :
    (∀ (d : Driver) (reg : Registry) (entries : List (String × JValue)) (e : PyErr),
        dispatch d reg (JValue.obj entries) (dictGet entries "action" (JValue.str "")) =
          .error e →
        handle_command d reg (JValue.obj entries) = .ok (errResp (pyErrStr e), reg)) ∧
    (∀ (d : Driver) (reg : Registry) (msg : String),
        d.createWindow = .error msg →
        handle_command d reg (mkOpenCmd "window") = .ok (errResp msg, reg)) ∧
    (∀ (d : Driver) (reg : Registry) (msg : String),
        d.currentWindow = none → d.createWindow = .error msg →
        handle_command d reg (mkOpenCmd "tab") = .ok (errResp msg, reg)) ∧
    (∀ (d : Driver) (reg : Registry) (w : Window) (msg : String),
        d.currentWindow = some w → d.createTab w = .error msg →
        handle_command d reg (mkOpenCmd "tab") = .ok (errResp msg, reg)) ∧
    (∀ (d : Driver) (reg : Registry) (msg : String),
        d.currentWindow = none → d.createWindow = .error msg →
        handle_command d reg (mkOpenCmd "split") = .ok (errResp msg, reg)) ∧
    (∀ (d : Driver) (reg : Registry) (w : Window) (msg : String),
        d.currentWindow = some w → (∀ b, d.splitPane w.currentSession b = .error msg) →
        handle_command d reg (mkOpenCmd "split") = .ok (errResp msg, reg)) ∧
    (∀ (d : Driver) (reg : Registry) (w : Window) (msg : String),
        d.createWindow = .ok w → (∀ t, d.sendText w.currentSession t = .error msg) →
        handle_command d reg (mkOpenWith "cwd" (JValue.str "/tmp")) =
          .ok (errResp msg, reg)) ∧
    (∀ (d : Driver) (reg : Registry) (w : Window) (msg : String),
        d.createWindow = .ok w → (∀ t, d.sendText w.currentSession t = .error msg) →
        handle_command d reg (mkOpenWith "env" (JValue.obj [("PATH", JValue.str "/bin")])) =
          .ok (errResp msg, reg)) ∧
    (∀ (d : Driver) (reg : Registry) (w : Window) (msg : String),
        d.createWindow = .ok w → (∀ t, d.sendText w.currentSession t = .error msg) →
        handle_command d reg (mkOpenWith "title" (JValue.str "build")) =
          .ok (errResp msg, reg)) ∧
    (∀ (d : Driver) (reg : Registry) (w : Window) (msg : String),
        d.createWindow = .ok w → (∀ t, d.sendText w.currentSession t = .error msg) →
        handle_command d reg (mkOpenWith "command" (JValue.str "ls")) =
          .ok (errResp msg, reg)) ∧
    (∀ (d : Driver) (reg : Registry) (w : Window) (msg : String),
        d.createWindow = .ok w → (∀ n v, d.setVariable w.currentSession n v = .error msg) →
        handle_command d reg (mkOpenWith "badge" (JValue.str "B1")) =
          .ok (errResp msg, reg)) ∧
    (∀ (d : Driver) (reg : Registry) (tid : String) (s : Session) (msg : String),
        rget reg tid = some s → (∀ t, d.sendText s t = .error msg) →
        handle_command d reg (mkCmd "send" tid) = .ok (errResp msg, reg)) ∧
    (∀ (d : Driver) (reg : Registry) (tid : String) (s : Session) (msg : String),
        rget reg tid = some s → (∀ a b, d.getContents s a b = .error msg) →
        handle_command d reg (mkCmd "read" tid) = .ok (errResp msg, reg)) ∧
    (∀ (d : Driver) (reg : Registry) (tid : String) (s : Session) (msg : String),
        rget reg tid = some s → (∀ a b, d.getContents s a b = .error msg) →
        handle_command d reg (mkCmd "detect" tid) = .ok (errResp msg, reg)) ∧
    (∀ (d : Driver) (reg : Registry) (tid : String) (s : Session) (msg : String),
        rget reg tid = some s → (∀ n v, d.setVariable s n v = .error msg) →
        handle_command d reg (mkCmd "badge" tid) = .ok (errResp msg, reg)) ∧
    (∀ (d : Driver) (reg : Registry) (tid : String) (s : Session) (msg : String),
        rget reg tid = some s → d.closeSession s = .error msg →
        handle_command d reg (mkCmd "close" tid) =
          .ok ([("ok", JValue.bool true)], rdel reg tid)) ∧
    (∀ (d : Driver) (tid : String) (s : Session) (msg : String),
        d.getVariable s "session.name" = .error msg →
        handle_command d [(tid, s)] (mkActionCmd "list") =
          .ok ([("ok", JValue.bool true),
                ("sessions", JValue.arr
                  [JValue.obj [("terminalId", JValue.str tid),
                               ("title", JValue.str tid),
                               ("alive", JValue.bool false)]])],
               [(tid, s)])) := by
  refine ⟨?_, ?_, ?_, ?_, ?_, ?_, ?_, ?_, ?_, ?_, ?_, ?_, ?_, ?_, ?_, ?_, ?_⟩
  · intro d reg entries e h
    simp [handle_command, jget, pyBind, h]
  · intro d reg msg h
    simp [handle_command, mkOpenCmd, jget, dictGet, jLookup, dispatch, JValue.eqStr,
      openHandler, openAcquire, openSetup, envLoop, pyBind, liftD, h, pyErrStr,
      jItems, jTruthy]
  · intro d reg msg hw h
    simp [handle_command, mkOpenCmd, jget, dictGet, jLookup, dispatch, JValue.eqStr,
      openHandler, openAcquire, openSetup, envLoop, pyBind, liftD, hw, h, pyErrStr,
      jItems, jTruthy]
  · intro d reg w msg hw h
    simp [handle_command, mkOpenCmd, jget, dictGet, jLookup, dispatch, JValue.eqStr,
      openHandler, openAcquire, openSetup, envLoop, pyBind, liftD, hw, h, pyErrStr,
      jItems, jTruthy]
  · intro d reg msg hw h
    simp [handle_command, mkOpenCmd, jget, dictGet, jLookup, dispatch, JValue.eqStr,
      openHandler, openAcquire, openSetup, envLoop, pyBind, liftD, hw, h, pyErrStr,
      jItems, jTruthy]
  · intro d reg w msg hw h
    simp [handle_command, mkOpenCmd, jget, dictGet, jLookup, dispatch, JValue.eqStr,
      openHandler, openAcquire, openSetup, envLoop, pyBind, liftD, hw, h, pyErrStr,
      jItems, jTruthy]
  · intro d reg w msg hc h
    simp [handle_command, mkOpenWith, jget, dictGet, jLookup, dispatch, JValue.eqStr,
      openHandler, openAcquire, openSetup, envLoop, pyBind, liftD, useSession, hc, h,
      pyErrStr, jItems, jTruthy, pyStr]
  · intro d reg w msg hc h
    simp [handle_command, mkOpenWith, jget, dictGet, jLookup, dispatch, JValue.eqStr,
      openHandler, openAcquire, openSetup, envLoop, pyBind, liftD, useSession, hc, h,
      pyErrStr, jItems, jTruthy, pyStr]
  · intro d reg w msg hc h
    simp [handle_command, mkOpenWith, jget, dictGet, jLookup, dispatch, JValue.eqStr,
      openHandler, openAcquire, openSetup, envLoop, pyBind, liftD, useSession, hc, h,
      pyErrStr, jItems, jTruthy, pyStr]
  · intro d reg w msg hc h
    simp [handle_command, mkOpenWith, jget, dictGet, jLookup, dispatch, JValue.eqStr,
      openHandler, openAcquire, openSetup, envLoop, pyBind, liftD, useSession, asStr,
      hc, h, pyErrStr, jItems, jTruthy, pyStr]
  · intro d reg w msg hc h
    simp [handle_command, mkOpenWith, jget, dictGet, jLookup, dispatch, JValue.eqStr,
      openHandler, openAcquire, openSetup, envLoop, pyBind, liftD, useSession, hc, h,
      pyErrStr, jItems, jTruthy, pyStr]
  · intro d reg tid s msg h1 h2
    simp [handle_command, mkCmd, jget, dictGet, jLookup, dispatch, JValue.eqStr,
      sendHandler, pyBind, sessionsGet, liftD, asStr, h1, h2, pyErrStr]
  · intro d reg tid s msg h1 h2
    simp [handle_command, mkCmd, jget, dictGet, jLookup, dispatch, JValue.eqStr,
      readHandler, pyBind, sessionsGet, liftD, asInt, h1, h2, pyErrStr]
  · intro d reg tid s msg h1 h2
    simp [handle_command, mkCmd, jget, dictGet, jLookup, dispatch, JValue.eqStr,
      detectHandler, pyBind, sessionsGet, liftD, asInt, h1, h2, pyErrStr]
  · intro d reg tid s msg h1 h2
    simp [handle_command, mkCmd, jget, dictGet, jLookup, dispatch, JValue.eqStr,
      badgeHandler, pyBind, sessionsGet, liftD, h1, h2, pyErrStr]
  · intro d reg tid s msg h1 h2
    simp [handle_command, mkCmd, jget, dictGet, jLookup, dispatch, JValue.eqStr,
      closeHandler, pyBind, sessionsGet, h1, h2]
  · intro d tid s msg h
    simp [handle_command, mkActionCmd, jget, dictGet, jLookup, dispatch, JValue.eqStr,
      listHandler, pyBind, h]

/-- Claim C8 amended witness: every conjunct instantiated on a concrete
driver and registry — the router-boundary conversion, each failing driver
call site of open, the four lookup actions, the close swallow and the list
absorption. -/
theorem c8_witness :
    (handle_command boomDriver [("t9", Session.mk "t9")]
        (JValue.obj [("id", JValue.str "r1"), ("action", JValue.str "open")]) =
      .ok (errResp "create failed", [("t9", Session.mk "t9")])) ∧
    (handle_command boomDriver [("t9", Session.mk "t9")] (mkOpenCmd "window") =
      .ok (errResp "create failed", [("t9", Session.mk "t9")])) ∧
    (handle_command boomDriver [("t9", Session.mk "t9")] (mkOpenCmd "tab") =
      .ok (errResp "create failed", [("t9", Session.mk "t9")])) ∧
    (handle_command tabFailDriver [("t9", Session.mk "t9")] (mkOpenCmd "tab") =
      .ok (errResp "tab failed", [("t9", Session.mk "t9")])) ∧
    (handle_command boomDriver [("t9", Session.mk "t9")] (mkOpenCmd "split") =
      .ok (errResp "create failed", [("t9", Session.mk "t9")])) ∧
    (handle_command splitFailDriver [("t9", Session.mk "t9")] (mkOpenCmd "split") =
      .ok (errResp "split failed", [("t9", Session.mk "t9")])) ∧
    (handle_command setupFailDriver [("t9", Session.mk "t9")]
        (mkOpenWith "cwd" (JValue.str "/tmp")) =
      .ok (errResp "send failed", [("t9", Session.mk "t9")])) ∧
    (handle_command setupFailDriver [("t9", Session.mk "t9")]
        (mkOpenWith "env" (JValue.obj [("PATH", JValue.str "/bin")])) =
      .ok (errResp "send failed", [("t9", Session.mk "t9")])) ∧
    (handle_command setupFailDriver [("t9", Session.mk "t9")]
        (mkOpenWith "title" (JValue.str "build")) =
      .ok (errResp "send failed", [("t9", Session.mk "t9")])) ∧
    (handle_command setupFailDriver [("t9", Session.mk "t9")]
        (mkOpenWith "command" (JValue.str "ls")) =
      .ok (errResp "send failed", [("t9", Session.mk "t9")])) ∧
    (handle_command setupFailDriver [("t9", Session.mk "t9")]
        (mkOpenWith "badge" (JValue.str "B1")) =
      .ok (errResp "variable failed", [("t9", Session.mk "t9")])) ∧
    (handle_command boomDriver [("t9", Session.mk "t9")] (mkCmd "send" "t9") =
      .ok (errResp "send failed", [("t9", Session.mk "t9")])) ∧
    (handle_command boomDriver [("t9", Session.mk "t9")] (mkCmd "read" "t9") =
      .ok (errResp "contents failed", [("t9", Session.mk "t9")])) ∧
    (handle_command boomDriver [("t9", Session.mk "t9")] (mkCmd "detect" "t9") =
      .ok (errResp "contents failed", [("t9", Session.mk "t9")])) ∧
    (handle_command boomDriver [("t9", Session.mk "t9")] (mkCmd "badge" "t9") =
      .ok (errResp "variable failed", [("t9", Session.mk "t9")])) ∧
    (handle_command boomDriver [("t9", Session.mk "t9")] (mkCmd "close" "t9") =
      .ok ([("ok", JValue.bool true)], rdel [("t9", Session.mk "t9")] "t9")) ∧
    (handle_command boomDriver [("t9", Session.mk "t9")] (mkActionCmd "list") =
      .ok ([("ok", JValue.bool true),
            ("sessions", JValue.arr
              [JValue.obj [("terminalId", JValue.str "t9"),
                           ("title", JValue.str "t9"),
                           ("alive", JValue.bool false)]])],
           [("t9", Session.mk "t9")])) :=
  ⟨c8_driver_failure_atomic.1 boomDriver [("t9", Session.mk "t9")]
     [("id", JValue.str "r1"), ("action", JValue.str "open")]
     (PyErr.driver "create failed") rfl,
   c8_driver_failure_atomic.2.1 boomDriver [("t9", Session.mk "t9")]
     "create failed" rfl,
   c8_driver_failure_atomic.2.2.1 boomDriver [("t9", Session.mk "t9")]
     "create failed" rfl rfl,
   c8_driver_failure_atomic.2.2.2.1 tabFailDriver [("t9", Session.mk "t9")]
     testWindow "tab failed" rfl rfl,
   c8_driver_failure_atomic.2.2.2.2.1 boomDriver [("t9", Session.mk "t9")]
     "create failed" rfl rfl,
   c8_driver_failure_atomic.2.2.2.2.2.1 splitFailDriver [("t9", Session.mk "t9")]
     testWindow "split failed" rfl (fun _ => rfl),
   c8_driver_failure_atomic.2.2.2.2.2.2.1 setupFailDriver [("t9", Session.mk "t9")]
     testWindow "send failed" rfl (fun _ => rfl),
   c8_driver_failure_atomic.2.2.2.2.2.2.2.1 setupFailDriver [("t9", Session.mk "t9")]
     testWindow "send failed" rfl (fun _ => rfl),
   c8_driver_failure_atomic.2.2.2.2.2.2.2.2.1 setupFailDriver [("t9", Session.mk "t9")]
     testWindow "send failed" rfl (fun _ => rfl),
   c8_driver_failure_atomic.2.2.2.2.2.2.2.2.2.1 setupFailDriver [("t9", Session.mk "t9")]
     testWindow "send failed" rfl (fun _ => rfl),
   c8_driver_failure_atomic.2.2.2.2.2.2.2.2.2.2.1 setupFailDriver [("t9", Session.mk "t9")]
     testWindow "variable failed" rfl (fun _ _ => rfl),
   c8_driver_failure_atomic.2.2.2.2.2.2.2.2.2.2.2.1 boomDriver [("t9", Session.mk "t9")]
     "t9" (Session.mk "t9") "send failed" rfl (fun _ => rfl),
   c8_driver_failure_atomic.2.2.2.2.2.2.2.2.2.2.2.2.1 boomDriver [("t9", Session.mk "t9")]
     "t9" (Session.mk "t9") "contents failed" rfl (fun _ _ => rfl),
   c8_driver_failure_atomic.2.2.2.2.2.2.2.2.2.2.2.2.2.1 boomDriver [("t9", Session.mk "t9")]
     "t9" (Session.mk "t9") "contents failed" rfl (fun _ _ => rfl),
   c8_driver_failure_atomic.2.2.2.2.2.2.2.2.2.2.2.2.2.2.1 boomDriver [("t9", Session.mk "t9")]
     "t9" (Session.mk "t9") "variable failed" rfl (fun _ _ => rfl),
   c8_driver_failure_atomic.2.2.2.2.2.2.2.2.2.2.2.2.2.2.2.1 boomDriver [("t9", Session.mk "t9")]
     "t9" (Session.mk "t9") "boom" rfl rfl,
   c8_driver_failure_atomic.2.2.2.2.2.2.2.2.2.2.2.2.2.2.2.2 boomDriver
     "t9" (Session.mk "t9") "name fetch failed" rfl⟩


/-- Claim C9: a close of a registered session answers ok:true and removes
the binding, after which the identifier has no binding, and a second close
or a send on the same identifier answers ok:false naming it, without any
exception. -/
theorem c9_close_then_reuse :
    ∀ (d : Driver) (reg : Registry) (tid : String) (s : Session),
      rget reg tid = some s →
      handle_command d reg (mkCmd "close" tid) =
        .ok ([("ok", JValue.bool true)], rdel reg tid) ∧
      rget (rdel reg tid) tid = none ∧
      handle_command d (rdel reg tid) (mkCmd "close" tid) =
        .ok ([("ok", JValue.bool false),
              ("error", JValue.str ("Session not found: " ++ tid))], rdel reg tid) ∧
      handle_command d (rdel reg tid) (mkCmd "send" tid) =
        .ok ([("ok", JValue.bool false),
              ("error", JValue.str ("Session not found: " ++ tid))], rdel reg tid) := by
  intro d reg tid s h
  have hgone : rget (rdel reg tid) tid = none := rget_rdel_self reg tid
  refine ⟨?_, hgone, ?_, ?_⟩
  · cases hc : d.closeSession s with
    | ok u =>
      simp [handle_command, mkCmd, jget, dictGet, jLookup, dispatch, JValue.eqStr,
        closeHandler, pyBind, sessionsGet, h, hc]
    | error e =>
      simp [handle_command, mkCmd, jget, dictGet, jLookup, dispatch, JValue.eqStr,
        closeHandler, pyBind, sessionsGet, h, hc]
  · simp [handle_command, mkCmd, jget, dictGet, jLookup, dispatch, JValue.eqStr,
      closeHandler, pyBind, sessionsGet, hgone, notFoundResp, errResp, pyStr]
  · simp [handle_command, mkCmd, jget, dictGet, jLookup, dispatch, JValue.eqStr,
      sendHandler, pyBind, sessionsGet, hgone, notFoundResp, errResp, pyStr]

/-- Claim C9 witness: close, a second close and a send after close on a
concrete registry. -/
theorem c9_witness :
    rget [("t1", Session.mk "t1")] "t1" = some (Session.mk "t1") ∧
    (handle_command okDriver [("t1", Session.mk "t1")] (mkCmd "close" "t1") =
        .ok ([("ok", JValue.bool true)], rdel [("t1", Session.mk "t1")] "t1") ∧
      rget (rdel [("t1", Session.mk "t1")] "t1") "t1" = none ∧
      handle_command okDriver (rdel [("t1", Session.mk "t1")] "t1") (mkCmd "close" "t1") =
        .ok ([("ok", JValue.bool false),
              ("error", JValue.str ("Session not found: " ++ "t1"))],
             rdel [("t1", Session.mk "t1")] "t1") ∧
      handle_command okDriver (rdel [("t1", Session.mk "t1")] "t1") (mkCmd "send" "t1") =
        .ok ([("ok", JValue.bool false),
              ("error", JValue.str ("Session not found: " ++ "t1"))],
             rdel [("t1", Session.mk "t1")] "t1")) :=
  ⟨rfl, c9_close_then_reuse okDriver [("t1", Session.mk "t1")] "t1" (Session.mk "t1") rfl⟩

/-- Claim C10: at the router missing fields default instead of failing: a
decoded object without an action field is dispatched as the empty action and
answered ok:false with the error Unknown action and a trailing space, a
missing id defaults to the empty string, and no decoded object ever makes
the loop body raise. -/
theorem c10_missing_fields_default :
    (∀ (d : Driver) (reg : Registry) (entries : List (String × JValue)),
        jLookup entries "action" = none → jLookup entries "id" = none →
        processLine d reg (LineInput.value (JValue.obj entries)) =
          .ok (some [("ok", JValue.bool false),
                     ("error", JValue.str "Unknown action: "),
                     ("id", JValue.str "")], reg)) ∧
    (∀ (d : Driver) (reg : Registry) (entries : List (String × JValue)),
        ∃ p, processLine d reg (LineInput.value (JValue.obj entries)) = .ok p) := by
  constructor
  · intro d reg entries ha hi
    simp [processLine, handle_command, jget, dictGet, ha, hi, dispatch, JValue.eqStr,
      pyBind, pyStr, oset]
  · intro d reg entries
    obtain ⟨⟨result, regOut⟩, hh⟩ := handle_command_obj_ok d reg entries
    exact ⟨(some (oset result "id" (dictGet entries "id" (JValue.str ""))), regOut),
      by simp [processLine, jget, pyBind, hh]⟩

/-- Claim C10 witness: a decoded object with neither action nor id,
answered with the empty-action unknown-action error and an empty id. -/
theorem c10_witness :
    (jLookup [("foo", JValue.num 7)] "action" = none ∧
      jLookup [("foo", JValue.num 7)] "id" = none) ∧
    processLine okDriver [] (LineInput.value (JValue.obj [("foo", JValue.num 7)])) =
      .ok (some [("ok", JValue.bool false),
                 ("error", JValue.str "Unknown action: "),
                 ("id", JValue.str "")], []) :=
  ⟨⟨rfl, rfl⟩, c10_missing_fields_default.1 okDriver [] [("foo", JValue.num 7)] rfl rfl⟩

end Bridge
